import Mathlib

/-!
Shallow embedding of `src/SIH-Backend-main/src/controllers/memoryWall.controller.js`.

The controller is modelled as pure Lean functions. External effects (the
Supabase-backed `memoryWallService`, the `profiles` table lookup, JavaScript
date parsing and the server clock, the `MAX_IMAGE_SIZE` environment variable)
are supplied through an `Env` record; each controller function returns its
HTTP-level result together with the ordered list of external service calls it
performed, so that claims of the form "the persistence service is never
invoked" become statements about that list.

Conventions of the embedding:
- JavaScript string-or-undefined values are `Option String`; `none` stands for
  `undefined`/`null` (the controller never distinguishes the two) and the JS
  truthiness test `if (x)` on such a value is `truthy`.
- `new Date(s)` / `isNaN(getTime())` are abstracted as `Env.parseDate : String
  → Option Int` (a timestamp in milliseconds, `none` for an invalid date), and
  the computed `today.setHours(23,59,59,999)` end-of-day timestamp is
  `Env.todayEnd`.
- `parseInt(process.env.MAX_IMAGE_SIZE)` is abstracted as the already-parsed
  `Env.maxImageSizeEnv : Option Int` (`none` when the variable is unset or does
  not parse); the `|| 10485760` fallback is `maxImageSize`.
- The multer middleware (file filter plus size limit) is `uploadCheck`,
  mirroring `fileFilter` and the `limits.fileSize` configuration of the source;
  `extname` mirrors the Node `path.extname` the filter relies on.
-/

namespace MemoryWall

/-- JS truthiness of a string-or-undefined value: `undefined`, `null` and the
empty string are falsy. -/
def truthy : Option String → Bool
  | none => false
  | some s => s ≠ ""

/-- The JS expression `a || b` on string-or-undefined values. -/
def jsOr (a b : Option String) : Option String :=
  if truthy a then a else b

/-- JS falsiness `!x` of a string-or-undefined value. -/
def strFalsy (o : Option String) : Bool := !(truthy o)

/-- JS `String.prototype.trim`: strip whitespace from both ends. Implemented
by structural recursion on the character list so that the kernel can evaluate
it on concrete strings. -/
def jsTrim (s : String) : String :=
  String.mk
    (((s.data.dropWhile Char.isWhitespace).reverse.dropWhile
        Char.isWhitespace).reverse)

/-- The JS test `!title || title.trim() === ''` used by the create handler. -/
def titleBlank (o : Option String) : Bool :=
  match o with
  | none => true
  | some s => s = "" || jsTrim s = ""

/-- Does the character list start with the given pattern? -/
def startsWithL : List Char → List Char → Bool
  | [], _ => true
  | _ :: _, [] => false
  | a :: pat, b :: l => a = b && startsWithL pat l

/-- Does the pattern occur as a contiguous sublist? -/
def hasSub (s pat : List Char) : Bool :=
  match s with
  | [] => pat.isEmpty
  | _ :: rest => startsWithL pat s || hasSub rest pat

/-- JS `s.includes(pat)`. -/
def includesStr (s pat : String) : Bool := hasSub s.data pat.data

/-- Node `path.extname`: the extension (with its dot) of the last path
component, where a dot at position 0 of the component does not start an
extension (`.bashrc` has no extension). -/
def extname (p : String) : String :=
  let b := (p.data.reverse.takeWhile (fun c => c ≠ '/')).reverse
  let rev := b.reverse
  let after := rev.takeWhile (fun c => c ≠ '.')
  let rest := rev.drop after.length
  match rest with
  | [] => ""
  | _ :: before => if before.isEmpty then "" else String.mk ('.' :: after.reverse)

/-- The allowed image types of `fileFilter` (line 17 of the controller). -/
def allowedImageTypes : List String :=
  ["jpg", "jpeg", "png", "gif", "webp", "heic", "heif"]

/-- `path.extname(file.originalname).toLowerCase().substring(1)` (line 18). -/
def fileExtension (originalname : String) : String :=
  String.mk (((extname originalname).data.map Char.toLower).drop 1)

/-- The rejection message built by `fileFilter` (line 23), the JS template
string with `allowedImageTypes.join(', ')` spliced in. -/
def fileFilterMsg : String :=
  "File type not allowed. Allowed image types: " ++
    ", ".intercalate allowedImageTypes

/-- `parseInt(process.env.MAX_IMAGE_SIZE) || 10485760` (line 31): the fallback
applies when the variable is unset / unparsable (`NaN`) or parses to `0`. -/
def maxImageSize (envVal : Option Int) : Int :=
  match envVal with
  | none => 10485760
  | some n => if n = 0 then 10485760 else n

/-- An uploaded multipart file as multer presents it. -/
structure UploadedFile where
  originalname : String
  size : Nat
  mimetype : String
  deriving Repr, DecidableEq

/-- The errors the upload middleware can hand to the controller callback:
the multer `LIMIT_FILE_SIZE` error, or the custom `fileFilter` error. -/
inductive UploadErr where
  | limitFileSize
  | fileFilterErr (msg : String)
  deriving Repr, DecidableEq

/-- Model of the configured multer middleware `upload.single('photo')`:
the file filter runs on the metadata of the incoming file before its content
is accepted, and the size limit is enforced while streaming. With no incoming
file the middleware succeeds and leaves `req.file` unset. -/
def uploadCheck (limit : Int) : Option UploadedFile → Option UploadErr
  | none => none
  | some f =>
    if allowedImageTypes.contains (fileExtension f.originalname) then
      if (f.size : Int) > limit then some .limitFileSize else none
    else
      some (.fileFilterErr fileFilterMsg)

/-- The persisted Memory record as returned by the service layer. -/
structure Memory where
  id : String
  title : String
  date : String
  description : Option String
  deriving Repr, DecidableEq

instance : Inhabited Memory := ⟨⟨"", "", "", none⟩⟩

/-- The aggregate statistics object returned by the service layer. -/
structure Stats where
  totalMemories : Nat
  memoriesThisMonth : Nat
  deriving Repr, DecidableEq

/-- The metadata object `memoryData` the create handler builds (lines
130-134). -/
structure MemoryData where
  title : String
  date : String
  description : Option String
  deriving Repr, DecidableEq

/-- The `updates` object the update handler builds (lines 229-258); a `none`
field was absent from the request body. -/
structure Updates where
  title : Option String := none
  date : Option String := none
  description : Option String := none
  deriving Repr, DecidableEq

/-- The list filters built by `getAllMemories` (lines 169-172). -/
structure Filters where
  search : Option String := none
  startDate : Option String := none
  endDate : Option String := none
  deriving Repr, DecidableEq

/-- `if (search) filters.search = search` and likewise for the date bounds:
only truthy query parameters are copied into the filters. -/
def mkFilters (search startDate endDate : Option String) : Filters :=
  { search := if truthy search then search else none
    startDate := if truthy startDate then startDate else none
    endDate := if truthy endDate then endDate else none }

/-- One external call made by a controller function: the `profiles` table
lookup, or one of the `memoryWallService` operations, with the arguments it
was invoked with. -/
inductive SvcCall where
  | profileFetch (userId : String)
  | svcCreate (data : MemoryData) (file : UploadedFile)
      (userId : String) (collegeId : Option String)
  | svcList (userId : String) (collegeId : Option String) (filters : Filters)
  | svcGetById (id userId : String) (collegeId : Option String)
  | svcUpdate (id userId : String) (collegeId : Option String) (updates : Updates)
  | svcDelete (id userId : String) (collegeId : Option String)
  | svcStats (userId : String) (collegeId : Option String)
  deriving Repr, DecidableEq

/-- The tenant argument a service call carries (`none` for the profile lookup,
which takes no tenant). -/
def callTenant : SvcCall → Option (Option String)
  | .profileFetch _ => none
  | .svcCreate _ _ _ c => some c
  | .svcList _ c _ => some c
  | .svcGetById _ _ c => some c
  | .svcUpdate _ _ c _ => some c
  | .svcDelete _ _ c => some c
  | .svcStats _ c => some c

/-- The HTTP-level outcome of a controller function: `errorResponse` with its
status, `notFoundResponse` (HTTP 404), or one of the success envelopes. -/
inductive CtrlResult where
  | error (msg : String) (status : Nat)
  | notFound (msg : String)
  | okMem (data : Memory) (msg : String) (status : Nat)
  | okList (data : List Memory) (msg : String)
  | okStats (data : Stats) (msg : String)
  deriving Repr, DecidableEq

/-- The authenticated session user populated by the auth middleware. -/
structure User where
  user_id : String
  college_id : Option String
  deriving Repr, DecidableEq

/-- The external world a request executes against: config, clock, date
parsing, the profile row, and the outcome each service operation would
produce if invoked (`Except.error msg` models the service throwing an error
with that message). -/
structure Env where
  maxImageSizeEnv : Option Int
  parseDate : String → Option Int
  todayEnd : Int
  profileCollegeId : Option String
  createOutcome : Except String Memory
  listOutcome : Except String (List Memory)
  byIdOutcome : Except String (Option Memory)
  updateOutcome : Except String Memory
  deleteOutcome : Except String Memory
  statsOutcome : Except String Stats

/-- A create request: session user, request-level tenant, the multipart file
and the body fields. -/
structure CreateReq where
  user : User
  tenant : Option String
  file : Option UploadedFile
  title : Option String
  date : Option String
  description : Option String
  deriving Repr

/-- The `memoryData` object the create handler builds (lines 130-134):
trimmed title, the date string as received, and the trimmed description when
truthy (else null). -/
def mkMemoryData (t d : String) (desc : Option String) : MemoryData :=
  { title := jsTrim t
    date := d
    description := if truthy desc then some (jsTrim (desc.getD "")) else none }

/-- Lines 104-157 of `createMemory`, reached once every field validation has
passed: tenant resolution (session college id, request tenant, profile
fallback), the missing-tenant check, the `memoryData` object and the service
call, with the catch block mapping a thrown service error to
`errorResponse(error.message || 'Failed to create memory', 500)`. -/
def createTail (env : Env) (uid : String) (sessionCid tenantCid : Option String)
    (file : UploadedFile) (t d : String) (desc : Option String) :
    CtrlResult × List SvcCall :=
  let c0 := jsOr sessionCid tenantCid
  let collegeId :=
    if truthy c0 then c0
    else if truthy env.profileCollegeId then env.profileCollegeId
    else none
  let calls0 : List SvcCall :=
    if truthy c0 then [] else [.profileFetch uid]
  if !(truthy collegeId) then
    (.error "College ID not found. Please update your profile." 400, calls0)
  else
    let memoryData := mkMemoryData t d desc
    let call := SvcCall.svcCreate memoryData file uid collegeId
    match env.createOutcome with
    | .ok mem =>
        (.okMem mem "Memory created successfully" 201, calls0 ++ [call])
    | .error msg =>
        (.error (if msg = "" then "Failed to create memory" else msg) 500,
         calls0 ++ [call])

/-- `createMemory` (lines 43-159): multer errors, field validation in source
order, then `createTail` (tenant resolution and the persistence call). -/
def createMemory (env : Env) (req : CreateReq) : CtrlResult × List SvcCall :=
  match uploadCheck (maxImageSize env.maxImageSizeEnv) req.file with
  | some .limitFileSize =>
      (.error "Photo size exceeds the limit (10MB)" 400, [])
  | some (.fileFilterErr m) => (.error m 400, [])
  | none =>
    match req.file with
    | none => (.error "Photo is required. Please choose a photo." 400, [])
    | some file =>
      if titleBlank req.title then (.error "Title is required" 400, [])
      else
        let t := req.title.getD ""
        if (jsTrim t).length > 200 then
          (.error "Title must not exceed 200 characters" 400, [])
        else if strFalsy req.date then (.error "Date is required" 400, [])
        else
          let d := req.date.getD ""
          match env.parseDate d with
          | none => (.error "Invalid date format" 400, [])
          | some md =>
            if md > env.todayEnd then
              (.error "Memory date cannot be in the future" 400, [])
            else
              createTail env req.user.user_id req.user.college_id req.tenant
                file t d req.description

/-- A list request: query parameters of `GET /memory-wall`. -/
structure ListReq where
  user : User
  tenant : Option String
  search : Option String
  startDate : Option String
  endDate : Option String
  deriving Repr

/-- `getAllMemories` (lines 165-187). -/
def getAllMemories (env : Env) (req : ListReq) : CtrlResult × List SvcCall :=
  let filters := mkFilters req.search req.startDate req.endDate
  let collegeId := jsOr req.user.college_id req.tenant
  let call := SvcCall.svcList req.user.user_id collegeId filters
  match env.listOutcome with
  | .ok ms => (.okList ms "Memories retrieved successfully", [call])
  | .error msg =>
      (.error (if msg = "" then "Failed to fetch memories" else msg) 500, [call])

/-- A request addressing a single record by id (get-by-id and delete). -/
structure IdReq where
  user : User
  tenant : Option String
  id : String
  deriving Repr

/-- `getMemoryById` (lines 193-216): a falsy service result or a thrown
`Memory not found` becomes `notFoundResponse`; any other thrown error becomes
a 500. -/
def getMemoryById (env : Env) (req : IdReq) : CtrlResult × List SvcCall :=
  let collegeId := jsOr req.user.college_id req.tenant
  let call := SvcCall.svcGetById req.id req.user.user_id collegeId
  match env.byIdOutcome with
  | .ok none => (.notFound "Memory not found", [call])
  | .ok (some m) => (.okMem m "Memory retrieved successfully" 200, [call])
  | .error msg =>
      if msg = "Memory not found" then (.notFound msg, [call])
      else (.error (if msg = "" then "Failed to fetch memory" else msg) 500,
            [call])

/-- An update request: target id and the mutable body fields; `none` means
the field was absent (`undefined`) in the body. -/
structure UpdateReq where
  user : User
  tenant : Option String
  id : String
  title : Option String
  date : Option String
  description : Option String
  deriving Repr

/-- The title block of `updateMemory` (lines 231-239): validate the trimmed
title but store the raw value in `updates`. -/
def updTitle (title : Option String) : Except CtrlResult (Option String) :=
  match title with
  | none => .ok none
  | some t =>
    if jsTrim t = "" then .error (.error "Title cannot be empty" 400)
    else if (jsTrim t).length > 200 then
      .error (.error "Title must not exceed 200 characters" 400)
    else .ok (some t)

/-- The date block of `updateMemory` (lines 241-254). -/
def updDate (env : Env) (date : Option String) :
    Except CtrlResult (Option String) :=
  match date with
  | none => .ok none
  | some ds =>
    match env.parseDate ds with
    | none => .error (.error "Invalid date format" 400)
    | some md =>
      if md > env.todayEnd then
        .error (.error "Memory date cannot be in the future" 400)
      else .ok (some ds)

/-- `updateMemory` (lines 222-279): per-field validation, the no-fields
check, the service call, and the catch block that turns an error whose
message contains `not found` or `permission` into `notFoundResponse`. -/
def updateMemory (env : Env) (req : UpdateReq) : CtrlResult × List SvcCall :=
  let collegeId := jsOr req.user.college_id req.tenant
  match updTitle req.title with
  | .error r => (r, [])
  | .ok ut =>
    match updDate env req.date with
    | .error r => (r, [])
    | .ok ud =>
      if ut.isNone && ud.isNone && req.description.isNone then
        (.error "No valid fields to update" 400, [])
      else
        let updates : Updates :=
          { title := ut, date := ud, description := req.description }
        let call := SvcCall.svcUpdate req.id req.user.user_id collegeId updates
        match env.updateOutcome with
        | .ok m => (.okMem m "Memory updated successfully" 200, [call])
        | .error msg =>
          if includesStr msg "not found" || includesStr msg "permission" then
            (.notFound msg, [call])
          else
            (.error (if msg = "" then "Failed to update memory" else msg) 500,
             [call])

/-- `deleteMemory` (lines 286-305). -/
def deleteMemory (env : Env) (req : IdReq) : CtrlResult × List SvcCall :=
  let collegeId := jsOr req.user.college_id req.tenant
  let call := SvcCall.svcDelete req.id req.user.user_id collegeId
  match env.deleteOutcome with
  | .ok m => (.okMem m "Memory deleted successfully" 200, [call])
  | .error msg =>
    if includesStr msg "not found" || includesStr msg "permission" then
      (.notFound msg, [call])
    else
      (.error (if msg = "" then "Failed to delete memory" else msg) 500, [call])

/-- A stats request. -/
structure StatsReq where
  user : User
  tenant : Option String
  deriving Repr

/-- `getMemoryStats` (lines 311-325). -/
def getMemoryStats (env : Env) (req : StatsReq) : CtrlResult × List SvcCall :=
  let collegeId := jsOr req.user.college_id req.tenant
  let call := SvcCall.svcStats req.user.user_id collegeId
  match env.statsOutcome with
  | .ok s => (.okStats s "Memory statistics retrieved successfully", [call])
  | .error msg =>
      (.error (if msg = "" then "Failed to fetch memory statistics" else msg)
         500, [call])

/-- A Memory row as the service stores it, with its owning student and
tenant. -/
structure StoredMemory where
  rowId : String
  student : String
  college : Option String
  record : Memory
  deriving Repr, DecidableEq

/-- Modelled from the spec: the ownership-scoped lookup inside
`memoryWallService.updateMemory` / `deleteMemory` (the service module is not
part of src/; per the spec the target must match id, owner and tenant). -/
def svcLookup (db : List StoredMemory) (id uid : String)
    (college : Option String) : Option StoredMemory :=
  db.find? (fun m => m.rowId == id && m.student == uid && m.college == college)

/-- Modelled from the spec: the outcome of `memoryWallService.updateMemory` /
`deleteMemory`. On a full (id, owner, tenant) match the stored record is
returned; otherwise the service throws one and the same not-found error,
whether the row is absent or belongs to a different owner or tenant. -/
def svcOwnedOutcome (db : List StoredMemory) (id uid : String)
    (college : Option String) : Except String Memory :=
  match svcLookup db id uid college with
  | none => .error "Memory not found"
  | some m => .ok m.record

/-! Concrete fixtures used by the witness and counterexample theorems. -/

/-- A concrete persisted record. -/
def memW : Memory := ⟨"m9", "Field Trip", "2024-01-05", none⟩

/-- A concrete 2 MB JPEG upload. -/
def fW : UploadedFile := ⟨"pic.JPG", 2000000, "image/jpeg"⟩

/-- A concrete session user carrying a tenant id. -/
def uW : User := ⟨"u1", some "c1"⟩

/-- A concrete session user with no tenant id. -/
def uEmpty : User := ⟨"u1", none⟩

/-- A concrete environment: no size override, a clock whose end of the
current day is timestamp 1000, a date parser recognising one past and one
future date, a profile row with tenant `pc`, and succeeding services. -/
def envW : Env :=
  { maxImageSizeEnv := none
    parseDate := fun s =>
      if s = "2024-01-05" then some 100
      else if s = "2999-01-01" then some 99999
      else none
    todayEnd := 1000
    profileCollegeId := some "pc"
    createOutcome := .ok memW
    listOutcome := .ok [memW]
    byIdOutcome := .ok (some memW)
    updateOutcome := .ok memW
    deleteOutcome := .ok memW
    statsOutcome := .ok ⟨1, 0⟩ }

/-- A fully valid create request against `envW`. -/
def reqValid : CreateReq :=
  { user := uW, tenant := none, file := some fW
    title := some "  Field Trip  ", date := some "2024-01-05"
    description := some " desc " }

/-- Valid except that no photo was uploaded. -/
def reqNoPhoto : CreateReq := { reqValid with file := none }

/-- Valid except for a whitespace-only title. -/
def reqBlankTitle : CreateReq := { reqValid with title := some "   " }

/-- Valid except for a title of 201 characters (and an invalid date, to pin
the check order). -/
def reqLongTitle : CreateReq :=
  { reqValid with title := some (String.mk (List.replicate 201 'a'))
                  date := some "nonsense" }

/-- Valid except that the date field is missing. -/
def reqNoDate : CreateReq := { reqValid with date := none }

/-- Valid except for an unparsable date. -/
def reqBadDate : CreateReq := { reqValid with date := some "nonsense" }

/-- Valid except for a date strictly after the end of the current day. -/
def reqFutureDate : CreateReq := { reqValid with date := some "2999-01-01" }

/-- The environment with the update-service outcome replaced. -/
def envUpd (env : Env) (o : Except String Memory) : Env :=
  { env with updateOutcome := o }

/-- The environment with the delete-service outcome replaced. -/
def envDel (env : Env) (o : Except String Memory) : Env :=
  { env with deleteOutcome := o }

/-! Helper lemmas. -/

theorem truthy_none : truthy none = false := rfl

theorem updTitle_ok_eq (title ut : Option String)
    (h : updTitle title = .ok ut) : ut = title := by
  cases title with
  | none => simpa [updTitle] using h.symm
  | some t =>
    by_cases h1 : jsTrim t = "" <;> by_cases h2 : (jsTrim t).length > 200 <;>
      simp_all [updTitle]

theorem updTitle_err_cases (title : Option String) (r : CtrlResult)
    (h : updTitle title = .error r) :
    r = .error "Title cannot be empty" 400 ∨
      r = .error "Title must not exceed 200 characters" 400 := by
  cases title with
  | none => simp [updTitle] at h
  | some t =>
    by_cases h1 : jsTrim t = "" <;> by_cases h2 : (jsTrim t).length > 200 <;>
      simp_all [updTitle]

theorem updDate_ok_eq (env : Env) (date ud : Option String)
    (h : updDate env date = .ok ud) : ud = date := by
  cases date with
  | none => simpa [updDate] using h.symm
  | some d =>
    cases hp : env.parseDate d with
    | none => simp [updDate, hp] at h
    | some md =>
      by_cases h2 : md > env.todayEnd <;> simp_all [updDate]

theorem updDate_err_cases (env : Env) (date : Option String) (r : CtrlResult)
    (h : updDate env date = .error r) :
    r = .error "Invalid date format" 400 ∨
      r = .error "Memory date cannot be in the future" 400 := by
  cases date with
  | none => simp [updDate] at h
  | some d =>
    cases hp : env.parseDate d with
    | none => simp_all [updDate]
    | some md =>
      by_cases h2 : md > env.todayEnd <;> simp_all [updDate]

/-- Any create request that passes every field validation reduces to the
tenant-resolution and persistence tail. -/
theorem createMemory_valid (env : Env) (req : CreateReq) (f : UploadedFile)
    (t d : String) (md : Int)
    (hup : uploadCheck (maxImageSize env.maxImageSizeEnv) req.file = none)
    (hf : req.file = some f) (ht : req.title = some t)
    (htb : titleBlank (some t) = false)
    (hlen : (jsTrim t).length ≤ 200)
    (hd : req.date = some d) (hdf : strFalsy (some d) = false)
    (hp : env.parseDate d = some md) (hfut : md ≤ env.todayEnd) :
    createMemory env req =
      createTail env req.user.user_id req.user.college_id req.tenant f t d
        req.description := by
  have hlen' : ¬ (jsTrim t).length > 200 := by omega
  have hfut' : ¬ md > env.todayEnd := by omega
  rw [hf] at hup
  simp [createMemory, hup, hf, ht, htb, hd, hdf, hp, hlen', hfut']

/-- C2: create validates in the fixed source order — photo presence, title
presence/blankness, trimmed-title length (at most 200), date presence, date
format, future date — each violation yielding its own 400 error message, and
on any such failure no external call, in particular no call to the
persistence service, is made (the call list is empty). -/
theorem create_field_validation_order (env : Env) (req : CreateReq)
    (hup : uploadCheck (maxImageSize env.maxImageSizeEnv) req.file = none) :
    (req.file = none →
      createMemory env req =
        (.error "Photo is required. Please choose a photo." 400, [])) ∧
    (∀ f, req.file = some f → titleBlank req.title = true →
      createMemory env req = (.error "Title is required" 400, [])) ∧
    (∀ f t, req.file = some f → req.title = some t →
      titleBlank (some t) = false → (jsTrim t).length > 200 →
      createMemory env req =
        (.error "Title must not exceed 200 characters" 400, [])) ∧
    (∀ f t, req.file = some f → req.title = some t →
      titleBlank (some t) = false → (jsTrim t).length ≤ 200 →
      strFalsy req.date = true →
      createMemory env req = (.error "Date is required" 400, [])) ∧
    (∀ f t d, req.file = some f → req.title = some t →
      titleBlank (some t) = false → (jsTrim t).length ≤ 200 →
      req.date = some d → strFalsy (some d) = false →
      env.parseDate d = none →
      createMemory env req = (.error "Invalid date format" 400, [])) ∧
    (∀ f t d md, req.file = some f → req.title = some t →
      titleBlank (some t) = false → (jsTrim t).length ≤ 200 →
      req.date = some d → strFalsy (some d) = false →
      env.parseDate d = some md → md > env.todayEnd →
      createMemory env req =
        (.error "Memory date cannot be in the future" 400, [])) := by
  refine ⟨?_, ?_, ?_, ?_, ?_, ?_⟩
  · intro hf; rw [hf] at hup; simp [createMemory, hup, hf]
  · intro f hf htb; rw [hf] at hup; simp [createMemory, hup, hf, htb]
  · intro f t hf ht htb hlen
    rw [hf] at hup
    simp [createMemory, hup, hf, ht, htb, hlen]
  · intro f t hf ht htb hlen hdf
    have hlen' : ¬ (jsTrim t).length > 200 := by omega
    rw [hf] at hup
    simp [createMemory, hup, hf, ht, htb, hlen', hdf]
  · intro f t d hf ht htb hlen hd hdf hp
    have hlen' : ¬ (jsTrim t).length > 200 := by omega
    rw [hf] at hup
    simp [createMemory, hup, hf, ht, htb, hlen', hd, hdf, hp]
  · intro f t d md hf ht htb hlen hd hdf hp hfut
    have hlen' : ¬ (jsTrim t).length > 200 := by omega
    rw [hf] at hup
    simp [createMemory, hup, hf, ht, htb, hlen', hd, hdf, hp, hfut]

set_option maxRecDepth 4000 in
/-- Witness for C2: each validation failure observed on a concrete request
against the concrete environment. -/
theorem create_field_validation_order_witness :
    createMemory envW reqNoPhoto =
        (.error "Photo is required. Please choose a photo." 400, []) ∧
    createMemory envW reqBlankTitle = (.error "Title is required" 400, []) ∧
    createMemory envW reqLongTitle =
        (.error "Title must not exceed 200 characters" 400, []) ∧
    createMemory envW reqNoDate = (.error "Date is required" 400, []) ∧
    createMemory envW reqBadDate = (.error "Invalid date format" 400, []) ∧
    createMemory envW reqFutureDate =
        (.error "Memory date cannot be in the future" 400, []) :=
  ⟨(create_field_validation_order envW reqNoPhoto (by decide)).1 (by decide),
   (create_field_validation_order envW reqBlankTitle (by decide)).2.1 fW
     (by decide) (by decide),
   (create_field_validation_order envW reqLongTitle (by decide)).2.2.1 fW
     (String.mk (List.replicate 201 'a')) (by decide) (by decide) (by decide)
     (by decide),
   (create_field_validation_order envW reqNoDate (by decide)).2.2.2.1 fW
     "  Field Trip  " (by decide) (by decide) (by decide) (by decide)
     (by decide),
   (create_field_validation_order envW reqBadDate (by decide)).2.2.2.2.1 fW
     "  Field Trip  " "nonsense" (by decide) (by decide) (by decide)
     (by decide) (by decide) (by decide) (by decide),
   (create_field_validation_order envW reqFutureDate (by decide)).2.2.2.2.2 fW
     "  Field Trip  " "2999-01-01" 99999 (by decide) (by decide) (by decide)
     (by decide) (by decide) (by decide) (by decide) (by decide)⟩

/-- C8: every uploaded file whose filename extension (as the file filter
computes it from the original name) lies outside the allowed image set is
rejected with a 400 error whose message names the allowed list, and no
external call — in particular no persistence call — is made. -/
theorem upload_bad_extension_rejected (env : Env) (req : CreateReq)
    (f : UploadedFile) (hf : req.file = some f)
    (hext : allowedImageTypes.contains (fileExtension f.originalname) = false) :
    createMemory env req = (.error fileFilterMsg 400, []) ∧
      fileFilterMsg =
        "File type not allowed. Allowed image types: jpg, jpeg, png, gif, webp, heic, heif" := by
  have hext' : fileExtension f.originalname ∉ allowedImageTypes := by
    simpa using hext
  constructor
  · simp [createMemory, uploadCheck, hf, hext']
  · decide

/-- Witness for C8: a `.exe` upload is rejected with the message naming the
allowed list and no service call. -/
theorem upload_bad_extension_rejected_witness :
    createMemory envW { reqValid with file := some ⟨"virus.exe", 5, "app/x"⟩ } =
        (.error fileFilterMsg 400, []) ∧
      fileFilterMsg =
        "File type not allowed. Allowed image types: jpg, jpeg, png, gif, webp, heic, heif" :=
  upload_bad_extension_rejected envW
    { reqValid with file := some ⟨"virus.exe", 5, "app/x"⟩ }
    ⟨"virus.exe", 5, "app/x"⟩ (by decide) (by decide)

/-- C9: an update whose body contains none of the fields title, date,
description fails with the 400 `No valid fields to update` error and the
service update operation is not invoked (no external call at all). -/
theorem update_no_fields_rejected (env : Env) (u : User) (tn : Option String)
    (id : String) :
    updateMemory env
        { user := u, tenant := tn, id := id
          title := none, date := none, description := none } =
      (.error "No valid fields to update" 400, []) := by
  simp [updateMemory, updTitle, updDate]

/-- C6 (amended): the size ceiling defaults to 10485760 bytes and a nonzero
parsed environment value overrides it; an upload above the configured
ceiling is rejected with a 400 error — but the message is the fixed string
citing 10MB, independent of the configured value. -/
theorem photo_size_limit_enforced (env : Env) (req : CreateReq)
    (f : UploadedFile) (hf : req.file = some f)
    (hext : allowedImageTypes.contains (fileExtension f.originalname) = true)
    (hsz : (f.size : Int) > maxImageSize env.maxImageSizeEnv) :
    maxImageSize none = 10485760 ∧
    (∀ n : Int, n ≠ 0 → maxImageSize (some n) = n) ∧
    createMemory env req =
      (.error "Photo size exceeds the limit (10MB)" 400, []) := by
  refine ⟨rfl, ?_, ?_⟩
  · intro n hn; simp [maxImageSize, hn]
  · have hext' : fileExtension f.originalname ∈ allowedImageTypes := by
      simpa using hext
    simp [createMemory, uploadCheck, hf, hext', hsz]

/-- Witness for C6 (amended): with the ceiling configured to 5242880 bytes,
a 5242881-byte JPEG is rejected. -/
theorem photo_size_limit_enforced_witness :
    maxImageSize none = 10485760 ∧
    (∀ n : Int, n ≠ 0 → maxImageSize (some n) = n) ∧
    createMemory { envW with maxImageSizeEnv := some 5242880 }
        { reqValid with file := some ⟨"big.jpg", 5242881, "image/jpeg"⟩ } =
      (.error "Photo size exceeds the limit (10MB)" 400, []) :=
  photo_size_limit_enforced { envW with maxImageSizeEnv := some 5242880 }
    { reqValid with file := some ⟨"big.jpg", 5242881, "image/jpeg"⟩ }
    ⟨"big.jpg", 5242881, "image/jpeg"⟩ (by decide) (by decide) (by decide)

/-- Counterexample for C6 as stated: with the ceiling configured to 5242880
bytes, an oversized upload is rejected with a message that does not cite the
configured limit — the message is the fixed 10MB string. -/
theorem photo_size_message_ignores_config :
    createMemory { envW with maxImageSizeEnv := some 5242880 }
        { reqValid with file := some ⟨"huge.jpg", 6000000, "image/jpeg"⟩ } =
      (.error "Photo size exceeds the limit (10MB)" 400, []) ∧
    includesStr "Photo size exceeds the limit (10MB)" "5242880" = false := by
  decide

/-- C1: with every field validation passing, the tenant id is resolved by
trying, in order, the session college id, the request-level tenant, then the
profile lookup — first non-empty wins, and the profile lookup happens only
when the first two are empty; the persistence call carries the resolved id.
When all three are empty the handler returns the 400 college-not-found error
and the persistence service is not called (only the profile lookup appears
in the call list). -/
theorem create_tenant_resolution (env : Env) (req : CreateReq)
    (f : UploadedFile) (t d : String) (md : Int)
    (hup : uploadCheck (maxImageSize env.maxImageSizeEnv) req.file = none)
    (hf : req.file = some f) (ht : req.title = some t)
    (htb : titleBlank (some t) = false) (hlen : (jsTrim t).length ≤ 200)
    (hd : req.date = some d) (hdf : strFalsy (some d) = false)
    (hp : env.parseDate d = some md) (hfut : md ≤ env.todayEnd) :
    (truthy req.user.college_id = true →
      (createMemory env req).2 =
        [SvcCall.svcCreate (mkMemoryData t d req.description) f
          req.user.user_id req.user.college_id]) ∧
    (truthy req.user.college_id = false → truthy req.tenant = true →
      (createMemory env req).2 =
        [SvcCall.svcCreate (mkMemoryData t d req.description) f
          req.user.user_id req.tenant]) ∧
    (truthy req.user.college_id = false → truthy req.tenant = false →
      truthy env.profileCollegeId = true →
      (createMemory env req).2 =
        [SvcCall.profileFetch req.user.user_id,
         SvcCall.svcCreate (mkMemoryData t d req.description) f
           req.user.user_id env.profileCollegeId]) ∧
    (truthy req.user.college_id = false → truthy req.tenant = false →
      truthy env.profileCollegeId = false →
      createMemory env req =
        (.error "College ID not found. Please update your profile." 400,
         [SvcCall.profileFetch req.user.user_id])) := by
  rw [createMemory_valid env req f t d md hup hf ht htb hlen hd hdf hp hfut]
  refine ⟨?_, ?_, ?_, ?_⟩
  · intro hc
    cases hco : env.createOutcome <;> simp [createTail, jsOr, hc, hco]
  · intro hc htn
    cases hco : env.createOutcome <;> simp [createTail, jsOr, hc, htn, hco]
  · intro hc htn hpc
    cases hco : env.createOutcome <;>
      simp [createTail, jsOr, hc, htn, hpc, hco]
  · intro hc htn hpc
    simp [createTail, jsOr, hc, htn, hpc, truthy_none]

/-- Witness for C1: the four resolution outcomes at concrete inputs — session
id wins; request tenant wins when the session id is empty; the profile value
is used after a profile fetch when both are empty; all empty yields the 400
error with only the profile fetch performed. -/
theorem create_tenant_resolution_witness :
    (createMemory envW reqValid).2 =
      [SvcCall.svcCreate (mkMemoryData "  Field Trip  " "2024-01-05"
        (some " desc ")) fW "u1" (some "c1")] ∧
    (createMemory envW
        { reqValid with user := uEmpty, tenant := some "tn1" }).2 =
      [SvcCall.svcCreate (mkMemoryData "  Field Trip  " "2024-01-05"
        (some " desc ")) fW "u1" (some "tn1")] ∧
    (createMemory envW { reqValid with user := uEmpty }).2 =
      [SvcCall.profileFetch "u1",
       SvcCall.svcCreate (mkMemoryData "  Field Trip  " "2024-01-05"
         (some " desc ")) fW "u1" (some "pc")] ∧
    createMemory { envW with profileCollegeId := none }
        { reqValid with user := uEmpty } =
      (.error "College ID not found. Please update your profile." 400,
       [SvcCall.profileFetch "u1"]) :=
  ⟨(create_tenant_resolution envW reqValid fW "  Field Trip  " "2024-01-05"
      100 (by decide) (by decide) (by decide) (by decide) (by decide)
      (by decide) (by decide) (by decide) (by decide)).1 (by decide),
   (create_tenant_resolution envW
      { reqValid with user := uEmpty, tenant := some "tn1" } fW
      "  Field Trip  " "2024-01-05" 100 (by decide) (by decide) (by decide)
      (by decide) (by decide) (by decide) (by decide) (by decide)
      (by decide)).2.1 (by decide) (by decide),
   (create_tenant_resolution envW { reqValid with user := uEmpty } fW
      "  Field Trip  " "2024-01-05" 100 (by decide) (by decide) (by decide)
      (by decide) (by decide) (by decide) (by decide) (by decide)
      (by decide)).2.2.1 (by decide) (by decide) (by decide),
   (create_tenant_resolution { envW with profileCollegeId := none }
      { reqValid with user := uEmpty } fW "  Field Trip  " "2024-01-05" 100
      (by decide) (by decide) (by decide) (by decide) (by decide) (by decide)
      (by decide) (by decide) (by decide)).2.2.2 (by decide) (by decide)
      (by decide)⟩

/-- C7: with the earlier checks passing and the date parsing to a timestamp
strictly after the end of the current day, both create and update reject
with the 400 future-date error and make no service call; when the timestamp
is on or before the end of the current day the date check passes, and —
given a resolved tenant and a succeeding service — create succeeds with
201. -/
theorem date_future_rejected_boundary_ok (env : Env) (req : CreateReq)
    (ureq : UpdateReq) (f : UploadedFile) (t d : String) (md : Int)
    (ut : Option String)
    (hup : uploadCheck (maxImageSize env.maxImageSizeEnv) req.file = none)
    (hf : req.file = some f) (ht : req.title = some t)
    (htb : titleBlank (some t) = false) (hlen : (jsTrim t).length ≤ 200)
    (hd : req.date = some d) (hdf : strFalsy (some d) = false)
    (hp : env.parseDate d = some md)
    (hut : updTitle ureq.title = .ok ut) (hud : ureq.date = some d) :
    (md > env.todayEnd →
      createMemory env req =
        (.error "Memory date cannot be in the future" 400, []) ∧
      updateMemory env ureq =
        (.error "Memory date cannot be in the future" 400, [])) ∧
    (md ≤ env.todayEnd →
      ∀ m, env.createOutcome = .ok m →
        truthy (jsOr req.user.college_id req.tenant) = true →
        createMemory env req =
          (.okMem m "Memory created successfully" 201,
           [SvcCall.svcCreate (mkMemoryData t d req.description) f
             req.user.user_id (jsOr req.user.college_id req.tenant)])) := by
  constructor
  · intro hfut
    constructor
    · have hlen' : ¬ (jsTrim t).length > 200 := by omega
      rw [hf] at hup
      simp [createMemory, hup, hf, ht, htb, hlen', hd, hdf, hp, hfut]
    · simp [updateMemory, hut, updDate, hud, hp, hfut]
  · intro hfut m hco hc
    rw [createMemory_valid env req f t d md hup hf ht htb hlen hd hdf hp hfut]
    simp [createTail, hc, hco]

/-- Witness for C7: the future date `2999-01-01` is rejected by create and
update; the in-range date `2024-01-05` passes and create returns 201. -/
theorem date_future_rejected_boundary_ok_witness :
    createMemory envW reqFutureDate =
        (.error "Memory date cannot be in the future" 400, []) ∧
    updateMemory envW
        { user := uW, tenant := none, id := "m1", title := none
          date := some "2999-01-01", description := none } =
      (.error "Memory date cannot be in the future" 400, []) ∧
    createMemory envW reqValid =
      (.okMem memW "Memory created successfully" 201,
       [SvcCall.svcCreate
         (mkMemoryData "  Field Trip  " "2024-01-05" (some " desc "))
         fW "u1" (some "c1")]) :=
  ⟨((date_future_rejected_boundary_ok envW reqFutureDate
      { user := uW, tenant := none, id := "m1", title := none
        date := some "2999-01-01", description := none }
      fW "  Field Trip  " "2999-01-01" 99999 none (by decide) (by decide)
      (by decide) (by decide) (by decide) (by decide) (by decide) (by decide)
      rfl (by decide)).1 (by decide)).1,
   ((date_future_rejected_boundary_ok envW reqFutureDate
      { user := uW, tenant := none, id := "m1", title := none
        date := some "2999-01-01", description := none }
      fW "  Field Trip  " "2999-01-01" 99999 none (by decide) (by decide)
      (by decide) (by decide) (by decide) (by decide) (by decide) (by decide)
      rfl (by decide)).1 (by decide)).2,
   (date_future_rejected_boundary_ok envW reqValid
      { user := uW, tenant := none, id := "m1", title := none
        date := some "2024-01-05", description := none }
      fW "  Field Trip  " "2024-01-05" 100 none (by decide) (by decide)
      (by decide) (by decide) (by decide) (by decide) (by decide) (by decide)
      rfl (by decide)).2 (by decide) memW rfl (by decide)⟩

/-- Counterexample for C4 as stated: an update whose title is ` Hi ` and
description ` d ` passes the raw, untrimmed values to the persistence
service — not the trimmed ones the claim requires. -/
theorem update_passes_untrimmed_cex :
    (updateMemory envW
        { user := uW, tenant := none, id := "m1"
          title := some " Hi ", date := none, description := some " d " }).2 =
      [SvcCall.svcUpdate "m1" "u1" (some "c1")
        { title := some " Hi ", date := none, description := some " d " }] ∧
    jsTrim " Hi " = "Hi" ∧ (" Hi " : String) ≠ "Hi" := by decide

/-- C4 (amended): create passes the trimmed title (nonempty after trimming,
at most 200 characters) and the trimmed description (null when falsy) to the
persistence service; update applies the same trim-based validation to a
present title but passes the raw, untrimmed title and the raw description
through to the service. -/
theorem title_description_normalization (env : Env) (req : CreateReq)
    (ureq : UpdateReq) (f : UploadedFile) (t d : String) (md : Int)
    (tu : String) (ud : Option String)
    (hup : uploadCheck (maxImageSize env.maxImageSizeEnv) req.file = none)
    (hf : req.file = some f) (ht : req.title = some t)
    (htb : titleBlank (some t) = false) (hlen : (jsTrim t).length ≤ 200)
    (hd : req.date = some d) (hdf : strFalsy (some d) = false)
    (hp : env.parseDate d = some md) (hfut : md ≤ env.todayEnd)
    (hc : truthy (jsOr req.user.college_id req.tenant) = true)
    (hut : ureq.title = some tu) (hub : jsTrim tu ≠ "")
    (hul : (jsTrim tu).length ≤ 200)
    (huD : updDate env ureq.date = .ok ud) :
    (createMemory env req).2 =
      [SvcCall.svcCreate
        { title := jsTrim t, date := d
          description :=
            if truthy req.description then
              some (jsTrim (req.description.getD "")) else none }
        f req.user.user_id (jsOr req.user.college_id req.tenant)] ∧
    jsTrim t ≠ "" ∧
    (updateMemory env ureq).2 =
      [SvcCall.svcUpdate ureq.id ureq.user.user_id
        (jsOr ureq.user.college_id ureq.tenant)
        { title := some tu, date := ud, description := ureq.description }] ∧
    (∀ (ureq2 : UpdateReq) (tb : String), ureq2.title = some tb →
      jsTrim tb = "" →
      updateMemory env ureq2 = (.error "Title cannot be empty" 400, [])) ∧
    (∀ (ureq2 : UpdateReq) (tb : String), ureq2.title = some tb →
      jsTrim tb ≠ "" → (jsTrim tb).length > 200 →
      updateMemory env ureq2 =
        (.error "Title must not exceed 200 characters" 400, [])) := by
  refine ⟨?_, ?_, ?_, ?_, ?_⟩
  · rw [createMemory_valid env req f t d md hup hf ht htb hlen hd hdf hp hfut]
    cases hco : env.createOutcome <;>
      simp [createTail, mkMemoryData, hc, hco]
  · simp [titleBlank] at htb
    exact htb.2
  · have hul2 : ¬ (jsTrim tu).length > 200 := by omega
    have hT : updTitle (some tu) = .ok (some tu) := by
      simp [updTitle, hub, hul2]
    cases hco : env.updateOutcome with
    | ok m => simp [updateMemory, hut, hT, huD, hco]
    | error msg =>
      by_cases hic :
          (includesStr msg "not found" || includesStr msg "permission") = true <;>
        simp [updateMemory, hut, hT, huD, hco, hic]
  · intro ureq2 tb hti hblank
    simp [updateMemory, updTitle, hti, hblank]
  · intro ureq2 tb hti hnb hlong
    simp [updateMemory, updTitle, hti, hnb, hlong]

set_option maxRecDepth 4000 in
/-- Witness for C4 (amended): create on the concrete valid request passes
the trimmed data; an update with title ` Hi ` and description ` d ` passes
them raw; an update with a whitespace-only title and one with a 201-character
title are each rejected with their own 400 and no service call. -/
theorem title_description_normalization_witness :
    (createMemory envW reqValid).2 =
      [SvcCall.svcCreate
        { title := jsTrim "  Field Trip  ", date := "2024-01-05"
          description :=
            if truthy reqValid.description then
              some (jsTrim (reqValid.description.getD "")) else none }
        fW "u1" (jsOr (some "c1") none)] ∧
    jsTrim "  Field Trip  " ≠ "" ∧
    (updateMemory envW
        { user := uW, tenant := none, id := "m1"
          title := some " Hi ", date := none
          description := some " d " }).2 =
      [SvcCall.svcUpdate "m1" "u1" (jsOr (some "c1") none)
        { title := some " Hi ", date := none, description := some " d " }] ∧
    updateMemory envW
        { user := uW, tenant := none, id := "m1"
          title := some "   ", date := none, description := none } =
      (.error "Title cannot be empty" 400, []) ∧
    updateMemory envW
        { user := uW, tenant := none, id := "m1"
          title := some (String.mk (List.replicate 201 'a')), date := none
          description := none } =
      (.error "Title must not exceed 200 characters" 400, []) := by
  have h := title_description_normalization envW reqValid
    { user := uW, tenant := none, id := "m1"
      title := some " Hi ", date := none, description := some " d " }
    fW "  Field Trip  " "2024-01-05" 100 " Hi " none (by decide) (by decide)
    (by decide) (by decide) (by decide) (by decide) (by decide) (by decide)
    (by decide) (by decide) (by decide) (by decide) (by decide) rfl
  exact ⟨h.1, h.2.1, h.2.2.1,
    h.2.2.2.1
      { user := uW, tenant := none, id := "m1"
        title := some "   ", date := none, description := none }
      "   " (by decide) (by decide),
    h.2.2.2.2
      { user := uW, tenant := none, id := "m1"
        title := some (String.mk (List.replicate 201 'a')), date := none
        description := none }
      (String.mk (List.replicate 201 'a')) (by decide) (by decide)
      (by decide)⟩

/-- Counterexample for C5 as stated: when the persistence service fails with
a message, that raw message is returned to the client in the 500 response
body rather than a generic message. -/
theorem create_error_message_leaked_cex :
    createMemory
        { envW with
            createOutcome := .error "Supabase storage failure: bucket missing" }
        reqValid =
      (.error "Supabase storage failure: bucket missing" 500,
       [SvcCall.svcCreate
         (mkMemoryData "  Field Trip  " "2024-01-05" (some " desc "))
         fW "u1" (some "c1")]) := by
  decide

/-- C5 (amended): when the persistence service fails during create, the
response is HTTP 500; its message is the service error message itself
whenever that message is nonempty, and the generic `Failed to create memory`
only when the service message is empty. The raw error object itself (stack
and all) is only logged, never placed in the response. -/
theorem create_service_error_500 (env : Env) (req : CreateReq)
    (f : UploadedFile) (t d : String) (md : Int) (msg : String)
    (hup : uploadCheck (maxImageSize env.maxImageSizeEnv) req.file = none)
    (hf : req.file = some f) (ht : req.title = some t)
    (htb : titleBlank (some t) = false) (hlen : (jsTrim t).length ≤ 200)
    (hd : req.date = some d) (hdf : strFalsy (some d) = false)
    (hp : env.parseDate d = some md) (hfut : md ≤ env.todayEnd)
    (hc : truthy (jsOr req.user.college_id req.tenant) = true)
    (hco : env.createOutcome = .error msg) :
    (createMemory env req).1 =
      .error (if msg = "" then "Failed to create memory" else msg) 500 := by
  rw [createMemory_valid env req f t d md hup hf ht htb hlen hd hdf hp hfut]
  simp [createTail, hc, hco]

/-- Witness for C5 (amended): a concrete failing service yields the 500 with
the raw message. -/
theorem create_service_error_500_witness :
    (createMemory { envW with createOutcome := .error "Supabase down" }
        reqValid).1 =
      .error "Supabase down" 500 :=
  create_service_error_500 { envW with createOutcome := .error "Supabase down" }
    reqValid fW "  Field Trip  " "2024-01-05" 100 "Supabase down" (by decide)
    (by decide) (by decide) (by decide) (by decide) (by decide) (by decide)
    (by decide) (by decide) (by decide) rfl

/-- Helper: when no row matches id, owner and tenant simultaneously, the
spec-modelled service outcome is the single not-found error. -/
theorem svcOwnedOutcome_notFound (db : List StoredMemory) (id uid : String)
    (college : Option String)
    (h : ∀ m ∈ db, ¬(m.rowId = id ∧ m.student = uid ∧ m.college = college)) :
    svcOwnedOutcome db id uid college = .error "Memory not found" := by
  unfold svcOwnedOutcome svcLookup
  rw [List.find?_eq_none.mpr]
  intro m hm
  have := h m hm
  simp only [Bool.and_eq_true, beq_iff_eq]
  tauto

/-- Helper: an update that reaches the service and gets the not-found error
responds with the 404 not-found result. -/
theorem updateMemory_notFound (env : Env) (ureq : UpdateReq)
    (ut ud : Option String)
    (hT : updTitle ureq.title = .ok ut)
    (hD : updDate env ureq.date = .ok ud)
    (hNE : (ut.isNone && ud.isNone && ureq.description.isNone) = false)
    (ho : env.updateOutcome = .error "Memory not found") :
    updateMemory env ureq =
      (.notFound "Memory not found",
       [SvcCall.svcUpdate ureq.id ureq.user.user_id
         (jsOr ureq.user.college_id ureq.tenant)
         { title := ut, date := ud, description := ureq.description }]) := by
  have hinc : (includesStr "Memory not found" "not found" ||
      includesStr "Memory not found" "permission") = true := by decide
  simp [updateMemory, hT, hD, hNE, ho, hinc]

/-- Helper: a delete whose service outcome is the not-found error responds
with the 404 not-found result. -/
theorem deleteMemory_notFound (env : Env) (dreq : IdReq)
    (ho : env.deleteOutcome = .error "Memory not found") :
    deleteMemory env dreq =
      (.notFound "Memory not found",
       [SvcCall.svcDelete dreq.id dreq.user.user_id
         (jsOr dreq.user.college_id dreq.tenant)]) := by
  have hinc : (includesStr "Memory not found" "not found" ||
      includesStr "Memory not found" "permission") = true := by decide
  simp [deleteMemory, ho, hinc]

/-- C3: for update and delete, a target row that is absent and a target row
that exists under a different owner or tenant produce identical responses —
the same 404 not-found result with the same message — so the two causes are
indistinguishable to the caller and no authorization-specific error is ever
returned. The service lookup is modelled from the spec (`svcOwnedOutcome`):
`dbA` has no row with the target id, `dbF` has rows with the target id only
under a different owner or tenant. -/
theorem update_delete_notfound_indistinguishable (env : Env)
    (dbA dbF : List StoredMemory) (ureq : UpdateReq) (dreq : IdReq)
    (ut ud : Option String)
    (hT : updTitle ureq.title = .ok ut)
    (hD : updDate env ureq.date = .ok ud)
    (hNE : (ut.isNone && ud.isNone && ureq.description.isNone) = false)
    (habs : ∀ m ∈ dbA, m.rowId ≠ ureq.id)
    (hmis : ∀ m ∈ dbF, m.rowId = ureq.id →
      ¬(m.student = ureq.user.user_id ∧
        m.college = jsOr ureq.user.college_id ureq.tenant))
    (habsD : ∀ m ∈ dbA, m.rowId ≠ dreq.id)
    (hmisD : ∀ m ∈ dbF, m.rowId = dreq.id →
      ¬(m.student = dreq.user.user_id ∧
        m.college = jsOr dreq.user.college_id dreq.tenant)) :
    updateMemory (envUpd env (svcOwnedOutcome dbA ureq.id ureq.user.user_id
        (jsOr ureq.user.college_id ureq.tenant))) ureq =
      updateMemory (envUpd env (svcOwnedOutcome dbF ureq.id ureq.user.user_id
        (jsOr ureq.user.college_id ureq.tenant))) ureq ∧
    (updateMemory (envUpd env (svcOwnedOutcome dbA ureq.id ureq.user.user_id
        (jsOr ureq.user.college_id ureq.tenant))) ureq).1 =
      .notFound "Memory not found" ∧
    deleteMemory (envDel env (svcOwnedOutcome dbA dreq.id dreq.user.user_id
        (jsOr dreq.user.college_id dreq.tenant))) dreq =
      deleteMemory (envDel env (svcOwnedOutcome dbF dreq.id dreq.user.user_id
        (jsOr dreq.user.college_id dreq.tenant))) dreq ∧
    (deleteMemory (envDel env (svcOwnedOutcome dbA dreq.id dreq.user.user_id
        (jsOr dreq.user.college_id dreq.tenant))) dreq).1 =
      .notFound "Memory not found" := by
  have oA : svcOwnedOutcome dbA ureq.id ureq.user.user_id
      (jsOr ureq.user.college_id ureq.tenant) = .error "Memory not found" :=
    svcOwnedOutcome_notFound _ _ _ _ (fun m hm hall => habs m hm hall.1)
  have oF : svcOwnedOutcome dbF ureq.id ureq.user.user_id
      (jsOr ureq.user.college_id ureq.tenant) = .error "Memory not found" :=
    svcOwnedOutcome_notFound _ _ _ _
      (fun m hm hall => hmis m hm hall.1 hall.2)
  have oAD : svcOwnedOutcome dbA dreq.id dreq.user.user_id
      (jsOr dreq.user.college_id dreq.tenant) = .error "Memory not found" :=
    svcOwnedOutcome_notFound _ _ _ _ (fun m hm hall => habsD m hm hall.1)
  have oFD : svcOwnedOutcome dbF dreq.id dreq.user.user_id
      (jsOr dreq.user.college_id dreq.tenant) = .error "Memory not found" :=
    svcOwnedOutcome_notFound _ _ _ _
      (fun m hm hall => hmisD m hm hall.1 hall.2)
  have eA := updateMemory_notFound
    (envUpd env (svcOwnedOutcome dbA ureq.id ureq.user.user_id
      (jsOr ureq.user.college_id ureq.tenant))) ureq ut ud hT hD hNE oA
  have eF := updateMemory_notFound
    (envUpd env (svcOwnedOutcome dbF ureq.id ureq.user.user_id
      (jsOr ureq.user.college_id ureq.tenant))) ureq ut ud hT hD hNE oF
  have dA := deleteMemory_notFound
    (envDel env (svcOwnedOutcome dbA dreq.id dreq.user.user_id
      (jsOr dreq.user.college_id dreq.tenant))) dreq oAD
  have dF := deleteMemory_notFound
    (envDel env (svcOwnedOutcome dbF dreq.id dreq.user.user_id
      (jsOr dreq.user.college_id dreq.tenant))) dreq oFD
  refine ⟨?_, ?_, ?_, ?_⟩
  · rw [eA, eF]
  · rw [eA]
  · rw [dA, dF]
  · rw [dA]

/-- Witness for C3: concretely, updating or deleting id `m1` when the only
row with that id belongs to another student and tenant gives exactly the
response obtained when no row with that id exists at all: 404, same
message. -/
theorem update_delete_notfound_indistinguishable_witness :
    updateMemory (envUpd envW (svcOwnedOutcome
        [⟨"other", "u1", some "c1", memW⟩] "m1" "u1" (jsOr (some "c1") none)))
        { user := uW, tenant := none, id := "m1", title := none
          date := none, description := some "x" } =
      updateMemory (envUpd envW (svcOwnedOutcome
        [⟨"m1", "intruder", some "c2", memW⟩] "m1" "u1"
        (jsOr (some "c1") none)))
        { user := uW, tenant := none, id := "m1", title := none
          date := none, description := some "x" } ∧
    (updateMemory (envUpd envW (svcOwnedOutcome
        [⟨"other", "u1", some "c1", memW⟩] "m1" "u1" (jsOr (some "c1") none)))
        { user := uW, tenant := none, id := "m1", title := none
          date := none, description := some "x" }).1 =
      .notFound "Memory not found" ∧
    deleteMemory (envDel envW (svcOwnedOutcome
        [⟨"other", "u1", some "c1", memW⟩] "m1" "u1" (jsOr (some "c1") none)))
        { user := uW, tenant := none, id := "m1" } =
      deleteMemory (envDel envW (svcOwnedOutcome
        [⟨"m1", "intruder", some "c2", memW⟩] "m1" "u1"
        (jsOr (some "c1") none)))
        { user := uW, tenant := none, id := "m1" } ∧
    (deleteMemory (envDel envW (svcOwnedOutcome
        [⟨"other", "u1", some "c1", memW⟩] "m1" "u1" (jsOr (some "c1") none)))
        { user := uW, tenant := none, id := "m1" }).1 =
      .notFound "Memory not found" :=
  update_delete_notfound_indistinguishable envW
    [⟨"other", "u1", some "c1", memW⟩] [⟨"m1", "intruder", some "c2", memW⟩]
    { user := uW, tenant := none, id := "m1", title := none
      date := none, description := some "x" }
    { user := uW, tenant := none, id := "m1" }
    none none rfl rfl (by decide) (by decide) (by decide) (by decide)
    (by decide)

/-- C10: for list, get-by-id, update, delete and stats requests in which both
the session college id and the request tenant are empty, the controller
performs no profile fallback lookup, never returns the tenant-missing
validation error that create uses, and passes the (falsy) tenant value
through to the persistence service unchanged. -/
theorem non_create_tenant_passthrough (env : Env) (u : User)
    (tn : Option String) (id : String)
    (search startDate endDate : Option String) (ureq : UpdateReq)
    (hu : truthy u.college_id = false) (htn : truthy tn = false)
    (hru : ureq.user = u) (hrt : ureq.tenant = tn) :
    ((getAllMemories env
        { user := u, tenant := tn, search := search
          startDate := startDate, endDate := endDate }).2 =
        [SvcCall.svcList u.user_id tn (mkFilters search startDate endDate)] ∧
      (getAllMemories env
        { user := u, tenant := tn, search := search
          startDate := startDate, endDate := endDate }).1 ≠
        .error "College ID not found. Please update your profile." 400) ∧
    ((getMemoryById env { user := u, tenant := tn, id := id }).2 =
        [SvcCall.svcGetById id u.user_id tn] ∧
      (getMemoryById env { user := u, tenant := tn, id := id }).1 ≠
        .error "College ID not found. Please update your profile." 400) ∧
    ((deleteMemory env { user := u, tenant := tn, id := id }).2 =
        [SvcCall.svcDelete id u.user_id tn] ∧
      (deleteMemory env { user := u, tenant := tn, id := id }).1 ≠
        .error "College ID not found. Please update your profile." 400) ∧
    ((getMemoryStats env { user := u, tenant := tn }).2 =
        [SvcCall.svcStats u.user_id tn] ∧
      (getMemoryStats env { user := u, tenant := tn }).1 ≠
        .error "College ID not found. Please update your profile." 400) ∧
    ((∀ c ∈ (updateMemory env ureq).2, callTenant c = some tn) ∧
      (updateMemory env ureq).1 ≠
        .error "College ID not found. Please update your profile." 400) := by
  have hjs : jsOr u.college_id tn = tn := by simp [jsOr, hu]
  refine ⟨?_, ?_, ?_, ?_, ?_⟩
  · cases ho : env.listOutcome <;> simp [getAllMemories, hjs, ho]
  · cases ho : env.byIdOutcome with
    | ok v => cases v <;> simp [getMemoryById, hjs, ho]
    | error msg =>
      by_cases hm : msg = "Memory not found" <;>
        simp [getMemoryById, hjs, ho, hm]
  · cases ho : env.deleteOutcome with
    | ok m => simp [deleteMemory, hjs, ho]
    | error msg =>
      by_cases hic :
          (includesStr msg "not found" || includesStr msg "permission") =
            true <;>
        simp [deleteMemory, hjs, ho, hic]
  · cases ho : env.statsOutcome <;> simp [getMemoryStats, hjs, ho]
  · rcases hT : updTitle ureq.title with r | ut
    · rcases updTitle_err_cases _ _ hT with h | h <;>
        simp [updateMemory, hT, h]
    · rcases hD : updDate env ureq.date with r | ud
      · rcases updDate_err_cases _ _ _ hD with h | h <;>
          simp [updateMemory, hT, hD, h]
      · by_cases hne :
            (ut.isNone && ud.isNone && ureq.description.isNone) = true
        · simp [updateMemory, hT, hD, hne]
        · cases ho : env.updateOutcome with
          | ok m =>
            simp [updateMemory, hT, hD, hne, ho, hru, hrt, hjs, callTenant]
          | error msg =>
            by_cases hic :
                (includesStr msg "not found" ||
                  includesStr msg "permission") = true <;>
              simp [updateMemory, hT, hD, hne, ho, hic, hru, hrt, hjs,
                callTenant]

/-- Witness for C10: with a session user and request tenant both empty, the
concrete list, get-by-id, delete, stats and update requests each call the
service with the empty tenant, perform no profile fetch, and do not return
the tenant-missing error. -/
theorem non_create_tenant_passthrough_witness :
    ((getAllMemories envW
        { user := uEmpty, tenant := none, search := some "x"
          startDate := none, endDate := none }).2 =
        [SvcCall.svcList "u1" none (mkFilters (some "x") none none)] ∧
      (getAllMemories envW
        { user := uEmpty, tenant := none, search := some "x"
          startDate := none, endDate := none }).1 ≠
        .error "College ID not found. Please update your profile." 400) ∧
    ((getMemoryById envW { user := uEmpty, tenant := none, id := "m1" }).2 =
        [SvcCall.svcGetById "m1" "u1" none] ∧
      (getMemoryById envW { user := uEmpty, tenant := none, id := "m1" }).1 ≠
        .error "College ID not found. Please update your profile." 400) ∧
    ((deleteMemory envW { user := uEmpty, tenant := none, id := "m1" }).2 =
        [SvcCall.svcDelete "m1" "u1" none] ∧
      (deleteMemory envW { user := uEmpty, tenant := none, id := "m1" }).1 ≠
        .error "College ID not found. Please update your profile." 400) ∧
    ((getMemoryStats envW { user := uEmpty, tenant := none }).2 =
        [SvcCall.svcStats "u1" none] ∧
      (getMemoryStats envW { user := uEmpty, tenant := none }).1 ≠
        .error "College ID not found. Please update your profile." 400) ∧
    ((∀ c ∈ (updateMemory envW
        { user := uEmpty, tenant := none, id := "m1", title := none
          date := none, description := some "hello" }).2,
        callTenant c = some none) ∧
      (updateMemory envW
        { user := uEmpty, tenant := none, id := "m1", title := none
          date := none, description := some "hello" }).1 ≠
        .error "College ID not found. Please update your profile." 400) :=
  non_create_tenant_passthrough envW uEmpty none "m1" (some "x") none none
    { user := uEmpty, tenant := none, id := "m1", title := none
      date := none, description := some "hello" }
    (by decide) (by decide) rfl rfl

end MemoryWall
